import Mathlib

/-!
Shallow embedding of the data pipeline of `src/EngineDataAnalysis-streamlit.py`
(EngineData repository).

Tables are lists of records; pandas timestamps become `Int` (seconds of a naive
datetime since the epoch) and numeric columns become `ℚ` (floating-point values
idealised as exact rationals).  A pandas column whose values may be NaN/absent
is `Option ℚ`.  Every definition below is translated from the source script:

* `df_filtered`          — line 30, boolean-mask filter of the device table;
* `filtered_sql_df`      — lines 37-40, the same window filter on the channel table;
* `channel_codes`, `selectbox_options` — lines 42-43, `unique()` and
  `sorted(channel_codes) if len(channel_codes) > 0 else ["None"]`;
* `filtered_channel_df`  — line 45, equality selection on `channel_code`;
* `merged_df`            — lines 47-53, inner merge on Device Date/Time = cycle_start_time;
* `floor_5min`, `agg_payload_5min` — lines 59-67, `dt.floor('5T')` and the
  groupby sum/count/mean (pandas groups with sorted, distinct keys);
* `leftJoinBuckets`, `filtered_channel_df2` — lines 70-76, the left merge of the
  channel rows with the aggregated buckets (the script reassigns the name
  `filtered_channel_df`; the post-merge table is called `filtered_channel_df2` here);
* `final_merged_df`      — lines 81-87, inner merge of `merged_df` with the
  bucket-augmented channel table on Device Date/Time = cycle_start_time_5min;
* `total_fuel_used`, `total_co2`, `avg_engine_load` — lines 94-96, the KPI metrics
  (pandas `.mean()` skips absent values and is NaN on an all-absent column,
  modelled as `none`);
* `runPipeline`          — the whole script run for one filter state.
-/

attribute [local semireducible] Rat.add Rat.mul Rat.inv

/-- One row of `df_5min.csv` (a `DeviceReading`): the columns of the device table
used by the pipeline and the KPIs. -/
structure DeviceReading where
  timestamp : Int
  fuel_rate : ℚ
  fuel_used_delta : ℚ
  engine_load : Option ℚ
  estimated_co2 : ℚ
deriving DecidableEq

/-- One row of `channel_summary_tab.csv` (a `ChannelSummaryRecord`). -/
structure ChannelRow where
  cycle_start_time : Int
  channel_code : String
  damage : ℚ
  life : ℚ
deriving DecidableEq

/-- One row of `payload_df.csv` (a `PayloadEvent`). -/
structure PayloadEvent where
  cycle_start_time : Int
  avg_payload : ℚ
deriving DecidableEq

/-- One row of the aggregated table `agg_payload_5min` (a `PayloadBucket`):
the grouped key column keeps its source name `cycle_start_time_5min`. -/
structure PayloadBucket where
  cycle_start_time_5min : Int
  sum_payload : ℚ
  count_payload : Nat
  avg_payload : ℚ
deriving DecidableEq

/-- A row of the left-merged channel table (lines 70-76): the channel columns
together with the optional payload-bucket columns (`none` = the NaN row a
pandas left merge produces when no bucket matches). -/
structure StageARow where
  chan : ChannelRow
  bucket : Option PayloadBucket
deriving DecidableEq

/-- Line 30: `df[(df[t] >= start_datetime) & (df[t] <= end_datetime)]`. -/
def df_filtered (dev : List DeviceReading) (s e : Int) : List DeviceReading :=
  dev.filter (fun r => decide (s ≤ r.timestamp) && decide (r.timestamp ≤ e))

/-- Lines 37-40: the same boolean-mask window filter on the channel table. -/
def filtered_sql_df (tab : List ChannelRow) (s e : Int) : List ChannelRow :=
  tab.filter (fun r => decide (s ≤ r.cycle_start_time) && decide (r.cycle_start_time ≤ e))

/-- Line 42: `filtered_sql_df['channel_code'].unique()`. -/
def channel_codes (tab : List ChannelRow) : List String :=
  (tab.map (fun r => r.channel_code)).dedup

/-- Line 43: the selectbox option list,
`sorted(channel_codes) if len(channel_codes) > 0 else ["None"]`. -/
def selectbox_options (tab : List ChannelRow) (s e : Int) : List String :=
  let codes := channel_codes (filtered_sql_df tab s e)
  if codes.isEmpty then ["None"] else List.insertionSort (fun a b => a ≤ b) codes

/-- Line 45: `filtered_sql_df[filtered_sql_df['channel_code'] == selected_channel]`. -/
def filtered_channel_df (tab : List ChannelRow) (s e : Int) (code : String) : List ChannelRow :=
  (filtered_sql_df tab s e).filter (fun r => r.channel_code == code)

/-- `pd.merge(l, r, how='inner', left_on=.., right_on=..)`: every pair of rows
with equal keys, in left-table order (pandas keeps the order of the left keys). -/
def innerJoin {α β : Type} (l : List α) (r : List β) (key : α → β → Bool) : List (α × β) :=
  l.flatMap (fun a => (r.filter (fun b => key a b)).map (fun b => (a, b)))

/-- Lines 47-53: `merged_df`, the inner merge of the filtered device table with
the channel-selected table on Device Date/Time = cycle_start_time. -/
def merged_df (dev : List DeviceReading) (tab : List ChannelRow) (s e : Int) (code : String) :
    List (DeviceReading × ChannelRow) :=
  innerJoin (df_filtered dev s e) (filtered_channel_df tab s e code)
    (fun d c => d.timestamp == c.cycle_start_time)

/-- Line 59: `dt.floor('5T')` — truncation of a timestamp downward (toward
negative infinity) to a multiple of 5 minutes = 300 seconds. -/
def floor_5min (t : Int) : Int := 300 * Int.fdiv t 300

/-- The distinct bucket keys of the payload table, sorted ascending
(pandas `groupby` uses the distinct keys with `sort=True`). -/
def agg_keys (pay : List PayloadEvent) : List Int :=
  List.insertionSort (fun a b => a ≤ b)
    ((pay.map (fun p => floor_5min p.cycle_start_time)).dedup)

/-- The aggregated row of one bucket key: sum, count and mean of `avg_payload`
over the events whose floored time is the key (lines 62-67). -/
def agg_row (pay : List PayloadEvent) (k : Int) : PayloadBucket :=
  let grp := pay.filter (fun p => floor_5min p.cycle_start_time == k)
  { cycle_start_time_5min := k
    sum_payload := (grp.map (fun p => p.avg_payload)).sum
    count_payload := grp.length
    avg_payload := (grp.map (fun p => p.avg_payload)).sum / (grp.length : ℚ) }

/-- Lines 62-67: `payload_df.groupby('cycle_start_time_5min')['avg_payload']
.agg(sum_payload='sum', count_payload='count', avg_payload='mean').reset_index()`. -/
def agg_payload_5min (pay : List PayloadEvent) : List PayloadBucket :=
  (agg_keys pay).map (agg_row pay)

/-- Lines 70-76: `pd.merge(chans, buckets, left_on='cycle_start_time',
right_on='cycle_start_time_5min', how='left')` — every left row is kept; a row
with no matching bucket gets the NaN (here `none`) bucket columns. -/
def leftJoinBuckets (chans : List ChannelRow) (buckets : List PayloadBucket) : List StageARow :=
  chans.flatMap (fun c =>
    if (buckets.filter (fun b => b.cycle_start_time_5min == c.cycle_start_time)).isEmpty
    then [{ chan := c, bucket := none }]
    else (buckets.filter (fun b => b.cycle_start_time_5min == c.cycle_start_time)).map
      (fun b => { chan := c, bucket := some b }))

/-- Lines 70-76 applied to the pipeline's tables (the script reassigns the name
`filtered_channel_df` to this merged table). -/
def filtered_channel_df2 (tab : List ChannelRow) (pay : List PayloadEvent) (s e : Int)
    (code : String) : List StageARow :=
  leftJoinBuckets (filtered_channel_df tab s e code) (agg_payload_5min pay)

/-- Whether a merged channel row carries a bucket whose `cycle_start_time_5min`
equals the given timestamp (a NaN key never matches a device timestamp). -/
def bucket_matches (a : StageARow) (t : Int) : Bool :=
  match a.bucket with
  | some b => b.cycle_start_time_5min == t
  | none => false

/-- Lines 81-87: `final_merged_df`, the inner merge of `merged_df` with the
bucket-augmented channel table on Device Date/Time = cycle_start_time_5min. -/
def final_merged_df (dev : List DeviceReading) (tab : List ChannelRow) (pay : List PayloadEvent)
    (s e : Int) (code : String) : List ((DeviceReading × ChannelRow) × StageARow) :=
  innerJoin (merged_df dev tab s e code) (filtered_channel_df2 tab pay s e code)
    (fun m a => bucket_matches a m.1.timestamp)

/-- Line 94: `df_filtered['FUEL USED DELTA'].sum()`. -/
def total_fuel_used (dev : List DeviceReading) (s e : Int) : ℚ :=
  ((df_filtered dev s e).map (fun r => r.fuel_used_delta)).sum

/-- Line 95: `df_filtered['Estimated CO2 (kg)'].sum()`. -/
def total_co2 (dev : List DeviceReading) (s e : Int) : ℚ :=
  ((df_filtered dev s e).map (fun r => r.estimated_co2)).sum

/-- Line 96: `df_filtered['ENGINE LOAD'].mean()` — pandas skips absent (NaN)
values and yields NaN (`none`) when no value is present. -/
def avg_engine_load (dev : List DeviceReading) (s e : Int) : Option ℚ :=
  let xs := (df_filtered dev s e).filterMap (fun r => r.engine_load)
  if xs.isEmpty then none else some (xs.sum / (xs.length : ℚ))

/-- The tables and KPI scalars one run of the script computes for a filter
state.  The script performs no validation of the time window: every run
produces this record (an empty window simply yields empty tables). -/
structure PipelineOutput where
  dfF : List DeviceReading
  merged : List (DeviceReading × ChannelRow)
  chanPayload : List StageARow
  finalMerged : List ((DeviceReading × ChannelRow) × StageARow)
  totalFuel : ℚ
  totalCO2 : ℚ
  avgLoad : Option ℚ
deriving DecidableEq

/-- One full run of the script's pipeline for a filter state (sources, window
bounds, selected channel code). -/
def runPipeline (dev : List DeviceReading) (tab : List ChannelRow) (pay : List PayloadEvent)
    (s e : Int) (code : String) : PipelineOutput :=
  { dfF := df_filtered dev s e
    merged := merged_df dev tab s e code
    chanPayload := filtered_channel_df2 tab pay s e code
    finalMerged := final_merged_df dev tab pay s e code
    totalFuel := total_fuel_used dev s e
    totalCO2 := total_co2 dev s e
    avgLoad := avg_engine_load dev s e }

/-- Modelled from the spec (design note of section 4.5 / C6): the proposed
collapsed single join — inner-join the time-filtered device table directly to
the bucket-augmented channel table, keyed on
DeviceReading.timestamp = bucket cycle_start_time_5min. -/
def single_bucket_join (dev : List DeviceReading) (tab : List ChannelRow) (pay : List PayloadEvent)
    (s e : Int) (code : String) : List (DeviceReading × StageARow) :=
  innerJoin (df_filtered dev s e) (filtered_channel_df2 tab pay s e code)
    (fun d a => bucket_matches a d.timestamp)

/-! ### General lemmas about the join and aggregation combinators -/

theorem mem_innerJoin {α β : Type} {l : List α} {r : List β} {key : α → β → Bool}
    {p : α × β} : p ∈ innerJoin l r key ↔ p.1 ∈ l ∧ p.2 ∈ r ∧ key p.1 p.2 = true := by
  constructor
  · intro h
    rcases List.mem_flatMap.mp h with ⟨a, ha, hp⟩
    rcases List.mem_map.mp hp with ⟨b, hb, rfl⟩
    rcases List.mem_filter.mp hb with ⟨hbr, hk⟩
    exact ⟨ha, hbr, hk⟩
  · rintro ⟨h1, h2, h3⟩
    exact List.mem_flatMap.mpr
      ⟨p.1, h1, List.mem_map.mpr ⟨p.2, List.mem_filter.mpr ⟨h2, h3⟩, rfl⟩⟩

theorem nodup_map_inj {α β : Type} {l : List α} {f : α → β}
    (h : (l.map f).Nodup) {c c' : α} (hc : c ∈ l) (hc' : c' ∈ l) (hf : f c = f c') :
    c = c' := by
  induction l with
  | nil => cases hc
  | cons a tl ih =>
    rw [List.map_cons, List.nodup_cons] at h
    rcases List.mem_cons.mp hc with rfl | hc2 <;> rcases List.mem_cons.mp hc' with rfl | hc2'
    · rfl
    · exact absurd (hf ▸ List.mem_map_of_mem f hc2') h.1
    · exact absurd (hf ▸ List.mem_map_of_mem f hc2) h.1
    · exact ih h.2 hc2 hc2'

theorem filter_eq_singleton_of_nodup {α β : Type} {l : List α} {f : α → β} {t : β}
    {p : α → Bool} (hp : ∀ x, p x = true ↔ f x = t) (h : (l.map f).Nodup)
    {c : α} (hc : c ∈ l) (hfc : f c = t) : l.filter p = [c] := by
  induction l with
  | nil => cases hc
  | cons a tl ih =>
    rw [List.map_cons, List.nodup_cons] at h
    rcases List.mem_cons.mp hc with rfl | hc2
    · have hnil : tl.filter p = [] := by
        refine List.filter_eq_nil_iff.mpr (fun x hx hpx => ?_)
        have hfx : f x = f c := ((hp x).mp hpx).trans hfc.symm
        exact h.1 (hfx ▸ List.mem_map_of_mem f hx)
      rw [List.filter_cons_of_pos ((hp c).mpr hfc), hnil]
    · have hpa : ¬ p a = true := by
        intro hpa
        have hfa : f a = f c := ((hp a).mp hpa).trans hfc.symm
        exact h.1 (hfa ▸ List.mem_map_of_mem f hc2)
      rw [List.filter_cons_of_neg hpa]
      exact ih h.2 hc2

theorem mem_leftJoinBuckets {chans : List ChannelRow} {buckets : List PayloadBucket}
    {a : StageARow} (h : a ∈ leftJoinBuckets chans buckets) :
    a.chan ∈ chans ∧ ∀ b, a.bucket = some b →
      b ∈ buckets ∧ b.cycle_start_time_5min = a.chan.cycle_start_time := by
  rcases List.mem_flatMap.mp h with ⟨c, hc, ha⟩
  by_cases hms :
      (buckets.filter (fun b => b.cycle_start_time_5min == c.cycle_start_time)).isEmpty
  · rw [if_pos hms] at ha
    rcases List.mem_singleton.mp ha with rfl
    exact ⟨hc, fun b hb => by cases hb⟩
  · rw [if_neg hms] at ha
    rcases List.mem_map.mp ha with ⟨b, hb, rfl⟩
    rcases List.mem_filter.mp hb with ⟨hbb, hkey⟩
    exact ⟨hc, fun b' hb' => by cases hb'; exact ⟨hbb, eq_of_beq hkey⟩⟩

theorem exists_mem_leftJoinBuckets {chans : List ChannelRow} {buckets : List PayloadBucket}
    {c : ChannelRow} (hc : c ∈ chans) :
    ∃ a ∈ leftJoinBuckets chans buckets, a.chan = c := by
  by_cases hms :
      (buckets.filter (fun b => b.cycle_start_time_5min == c.cycle_start_time)).isEmpty
  · exact ⟨⟨c, none⟩,
      List.mem_flatMap.mpr ⟨c, hc, by rw [if_pos hms]; exact List.mem_singleton.mpr rfl⟩, rfl⟩
  · rcases List.exists_mem_of_ne_nil _ (fun hnil => hms (List.isEmpty_iff.mpr hnil)) with ⟨b, hb⟩
    exact ⟨⟨c, some b⟩,
      List.mem_flatMap.mpr ⟨c, hc, by rw [if_neg hms]; exact List.mem_map_of_mem _ hb⟩, rfl⟩

theorem none_mem_leftJoinBuckets {chans : List ChannelRow} {buckets : List PayloadBucket}
    {c : ChannelRow} (hc : c ∈ chans)
    (h : ∀ b ∈ buckets, ¬ b.cycle_start_time_5min = c.cycle_start_time) :
    StageARow.mk c none ∈ leftJoinBuckets chans buckets := by
  have hnil : buckets.filter (fun b => b.cycle_start_time_5min == c.cycle_start_time) = [] :=
    List.filter_eq_nil_iff.mpr (fun b hb hkey => h b hb (eq_of_beq hkey))
  exact List.mem_flatMap.mpr
    ⟨c, hc, by rw [hnil]; exact List.mem_singleton.mpr rfl⟩

/-! ### Lemmas about the payload aggregation -/

theorem agg_keys_sorted (pay : List PayloadEvent) :
    (agg_keys pay).Sorted (fun a b => a ≤ b) :=
  List.sorted_insertionSort _ _

theorem agg_keys_nodup (pay : List PayloadEvent) : (agg_keys pay).Nodup :=
  ((List.perm_insertionSort _ _).nodup_iff).mpr (List.nodup_dedup _)

theorem mem_agg_keys {pay : List PayloadEvent} {k : Int} :
    k ∈ agg_keys pay ↔ ∃ p ∈ pay, floor_5min p.cycle_start_time = k := by
  rw [agg_keys, (List.perm_insertionSort _ _).mem_iff, List.mem_dedup, List.mem_map]

theorem agg_map_key (pay : List PayloadEvent) :
    (agg_payload_5min pay).map (fun r => r.cycle_start_time_5min) = agg_keys pay := by
  rw [agg_payload_5min, List.map_map]
  have hfun : ((fun r : PayloadBucket => r.cycle_start_time_5min) ∘ agg_row pay) = id := rfl
  rw [hfun, List.map_id]

theorem mem_agg {pay : List PayloadEvent} {r : PayloadBucket} :
    r ∈ agg_payload_5min pay ↔ ∃ k ∈ agg_keys pay, r = agg_row pay k := by
  rw [agg_payload_5min, List.mem_map]
  constructor
  · rintro ⟨k, hk, rfl⟩
    exact ⟨k, hk, rfl⟩
  · rintro ⟨k, hk, rfl⟩
    exact ⟨k, hk, rfl⟩

theorem leftJoinBuckets_map_chan {chans : List ChannelRow} {buckets : List PayloadBucket}
    (hb : (buckets.map (fun b => b.cycle_start_time_5min)).Nodup) :
    (leftJoinBuckets chans buckets).map (fun a => a.chan) = chans := by
  induction chans with
  | nil => rfl
  | cons c tl ih =>
    have hstep : leftJoinBuckets (c :: tl) buckets
        = (if (buckets.filter (fun b => b.cycle_start_time_5min == c.cycle_start_time)).isEmpty
           then [StageARow.mk c none]
           else (buckets.filter (fun b => b.cycle_start_time_5min == c.cycle_start_time)).map
             (fun b => StageARow.mk c (some b)))
          ++ leftJoinBuckets tl buckets := rfl
    rw [hstep, List.map_append, ih]
    by_cases hms :
        (buckets.filter (fun b => b.cycle_start_time_5min == c.cycle_start_time)).isEmpty
    · rw [if_pos hms]; rfl
    · rw [if_neg hms]
      rcases List.exists_mem_of_ne_nil _ (fun hnil => hms (List.isEmpty_iff.mpr hnil))
        with ⟨b, hbm⟩
      have hbf := List.mem_filter.mp hbm
      have hsingle :
          buckets.filter (fun x => x.cycle_start_time_5min == c.cycle_start_time) = [b] :=
        filter_eq_singleton_of_nodup (fun x => beq_iff_eq) hb hbf.1 (eq_of_beq hbf.2)
      rw [hsingle]; rfl

/-! ### The claims -/

/-- Claim C1: the Payload Aggregator assigns each event the bucket key
floor(cycle_start_time, 5 minutes) (truncation toward negative infinity, so an
event at 12:04:59 = 43499 s gets bucket 12:00:00 = 43200 s and an event at
12:05:00 = 43500 s gets bucket 43500 s), and returns exactly one row per
distinct bucket key with count_payload = number of events in the bucket,
sum_payload = sum of their avg_payload values and avg_payload =
sum_payload / count_payload; a bucket with zero events never appears. -/
theorem payload_aggregator_correct (pay : List PayloadEvent) :
    ((agg_payload_5min pay).map (fun r => r.cycle_start_time_5min)).Nodup
    ∧ (∀ k : Int, (∃ r ∈ agg_payload_5min pay, r.cycle_start_time_5min = k)
        ↔ ∃ p ∈ pay, floor_5min p.cycle_start_time = k)
    ∧ (∀ r ∈ agg_payload_5min pay,
        r.count_payload = (pay.filter
            (fun p => floor_5min p.cycle_start_time == r.cycle_start_time_5min)).length
        ∧ r.sum_payload = ((pay.filter
            (fun p => floor_5min p.cycle_start_time == r.cycle_start_time_5min)).map
            (fun p => p.avg_payload)).sum
        ∧ r.avg_payload = r.sum_payload / (r.count_payload : ℚ)
        ∧ 0 < r.count_payload)
    ∧ floor_5min 43499 = 43200 ∧ floor_5min 43500 = 43500 := by
  refine ⟨?_, ?_, ?_, by decide, by decide⟩
  · rw [agg_map_key]; exact agg_keys_nodup pay
  · intro k
    constructor
    · rintro ⟨r, hr, rfl⟩
      rcases mem_agg.mp hr with ⟨k', hk', rfl⟩
      exact mem_agg_keys.mp hk'
    · intro hp
      exact ⟨agg_row pay k, mem_agg.mpr ⟨k, mem_agg_keys.mpr hp, rfl⟩, rfl⟩
  · intro r hr
    rcases mem_agg.mp hr with ⟨k, hk, rfl⟩
    rcases mem_agg_keys.mp hk with ⟨p, hp, hfp⟩
    refine ⟨rfl, rfl, rfl, ?_⟩
    have hpf : p ∈ pay.filter (fun q => floor_5min q.cycle_start_time == k) :=
      List.mem_filter.mpr ⟨hp, beq_iff_eq.mpr hfp⟩
    exact List.length_pos.mpr (List.ne_nil_of_mem hpf)

def payW1 : List PayloadEvent := [⟨299, 2⟩, ⟨0, 4⟩, ⟨300, 5⟩]

theorem payload_aggregator_correct_witness :
    PayloadBucket.mk 0 6 2 3 ∈ agg_payload_5min payW1
    ∧ (PayloadBucket.mk 0 6 2 3).avg_payload
        = (PayloadBucket.mk 0 6 2 3).sum_payload
          / ((PayloadBucket.mk 0 6 2 3).count_payload : ℚ)
    ∧ 0 < (PayloadBucket.mk 0 6 2 3).count_payload := by
  have hmem : PayloadBucket.mk 0 6 2 3 ∈ agg_payload_5min payW1 := by decide
  exact ⟨hmem, ((payload_aggregator_correct payW1).2.2.1 _ hmem).2.2⟩

/-- Claim C2: the Stage-A bucket attach is a left join on
cycle_start_time = bucket key: every channel row appears in the result (none is
dropped, and every result row comes from a channel row), and a channel row whose
cycle_start_time matches no bucket key keeps the null (`none`) payload fields. -/
theorem stageA_left_join_correct (tab : List ChannelRow) (pay : List PayloadEvent)
    (s e : Int) (code : String) :
    (∀ c ∈ filtered_channel_df tab s e code,
        ∃ a ∈ filtered_channel_df2 tab pay s e code, a.chan = c)
    ∧ (∀ a ∈ filtered_channel_df2 tab pay s e code,
        a.chan ∈ filtered_channel_df tab s e code)
    ∧ (∀ c ∈ filtered_channel_df tab s e code,
        (∀ b ∈ agg_payload_5min pay, b.cycle_start_time_5min ≠ c.cycle_start_time) →
        StageARow.mk c none ∈ filtered_channel_df2 tab pay s e code) :=
  ⟨fun _ hc => exists_mem_leftJoinBuckets hc,
    fun _ ha => (mem_leftJoinBuckets ha).1,
    fun _ hc h => none_mem_leftJoinBuckets hc h⟩

def tabW2 : List ChannelRow := [⟨100, "A", 1, 2⟩]

def payW2 : List PayloadEvent := [⟨0, 3⟩]

theorem stageA_left_join_witness :
    ChannelRow.mk 100 "A" 1 2 ∈ filtered_channel_df tabW2 0 200 "A"
    ∧ StageARow.mk (ChannelRow.mk 100 "A" 1 2) none
        ∈ filtered_channel_df2 tabW2 payW2 0 200 "A" := by
  have hc : ChannelRow.mk 100 "A" 1 2 ∈ filtered_channel_df tabW2 0 200 "A" := by decide
  exact ⟨hc, (stageA_left_join_correct tabW2 payW2 0 200 "A").2.2 _ hc (by decide)⟩

/-- Claim C3: the Stage-B join is an inner join of the time-filtered device
table with the channel table on timestamp = cycle_start_time: every result row
arises from a pair with equal keys, every matching pair appears, and a row of
either side whose key has no counterpart on the other side is dropped. -/
theorem stageB_inner_join_correct (dev : List DeviceReading) (tab : List ChannelRow)
    (s e : Int) (code : String) :
    (∀ p ∈ merged_df dev tab s e code,
        p.1 ∈ df_filtered dev s e ∧ p.2 ∈ filtered_channel_df tab s e code
        ∧ p.1.timestamp = p.2.cycle_start_time)
    ∧ (∀ d ∈ df_filtered dev s e, ∀ c ∈ filtered_channel_df tab s e code,
        d.timestamp = c.cycle_start_time → (d, c) ∈ merged_df dev tab s e code)
    ∧ (∀ d ∈ df_filtered dev s e,
        (∀ c ∈ filtered_channel_df tab s e code, d.timestamp ≠ c.cycle_start_time) →
        ∀ p ∈ merged_df dev tab s e code, p.1 ≠ d)
    ∧ (∀ c ∈ filtered_channel_df tab s e code,
        (∀ d ∈ df_filtered dev s e, d.timestamp ≠ c.cycle_start_time) →
        ∀ p ∈ merged_df dev tab s e code, p.2 ≠ c) := by
  refine ⟨fun p hp => ?_, fun d hd c hc h => ?_, fun d hd h p hp hpd => ?_,
    fun c hc h p hp hpc => ?_⟩
  · rcases mem_innerJoin.mp hp with ⟨h1, h2, h3⟩
    exact ⟨h1, h2, eq_of_beq h3⟩
  · exact mem_innerJoin.mpr ⟨hd, hc, beq_iff_eq.mpr h⟩
  · rcases mem_innerJoin.mp hp with ⟨h1, h2, h3⟩
    exact h p.2 h2 (hpd ▸ eq_of_beq h3)
  · rcases mem_innerJoin.mp hp with ⟨h1, h2, h3⟩
    exact h p.1 h1 (hpc ▸ eq_of_beq h3)

def devW3 : List DeviceReading := [⟨100, 1, 1, none, 1⟩]

def tabW3 : List ChannelRow := [⟨100, "A", 1, 2⟩]

theorem stageB_inner_join_witness :
    (DeviceReading.mk 100 1 1 none 1, ChannelRow.mk 100 "A" 1 2)
      ∈ merged_df devW3 tabW3 0 200 "A" :=
  (stageB_inner_join_correct devW3 tabW3 0 200 "A").2.1 _ (by decide) _ (by decide) (by decide)

/-- Claim C4: for s ≤ e the Time-Window Filter returns exactly the subsequence
of rows with s ≤ timestamp ≤ e, preserving the original order; an empty result
is valid, and with s = e only rows exactly at that instant are returned. -/
theorem time_window_filter_correct (dev : List DeviceReading) (s e : Int) (_hse : s ≤ e) :
    List.Sublist (df_filtered dev s e) dev
    ∧ (∀ r : DeviceReading, r ∈ df_filtered dev s e ↔
        r ∈ dev ∧ s ≤ r.timestamp ∧ r.timestamp ≤ e)
    ∧ (s = e → ∀ r ∈ df_filtered dev s e, r.timestamp = s) := by
  refine ⟨List.filter_sublist dev, fun r => ?_, fun hseq r hr => ?_⟩
  · rw [df_filtered, List.mem_filter]
    simp only [Bool.and_eq_true, decide_eq_true_eq]
  · have hcond := (List.mem_filter.mp hr).2
    simp only [Bool.and_eq_true, decide_eq_true_eq] at hcond
    exact le_antisymm (hseq ▸ hcond.2) hcond.1

def devW4 : List DeviceReading := [⟨5, 1, 1, none, 1⟩, ⟨20, 1, 1, none, 1⟩]

theorem time_window_filter_witness :
    (0 : Int) ≤ 10 ∧ List.Sublist (df_filtered devW4 0 10) devW4 :=
  ⟨by decide, (time_window_filter_correct devW4 0 10 (by decide)).1⟩

/-- Claim C10: because the aggregated payload table has one row per distinct
bucket key, the Stage-A left join never duplicates channel rows: its result,
projected to the channel columns, is exactly the input channel table, so in
particular it has the same number of rows. -/
theorem stageA_row_count (tab : List ChannelRow) (pay : List PayloadEvent) (s e : Int)
    (code : String) :
    (filtered_channel_df2 tab pay s e code).map (fun a => a.chan)
      = filtered_channel_df tab s e code
    ∧ (filtered_channel_df2 tab pay s e code).length
      = (filtered_channel_df tab s e code).length := by
  have h1 : (filtered_channel_df2 tab pay s e code).map (fun a => a.chan)
      = filtered_channel_df tab s e code :=
    leftJoinBuckets_map_chan (by rw [agg_map_key]; exact agg_keys_nodup pay)
  refine ⟨h1, ?_⟩
  have h2 := congrArg List.length h1
  rwa [List.length_map] at h2

/-- Claim C5 (amended): the script performs no validation of the time window.
For start > end no error is raised: the boolean-mask filters simply return
empty tables, the whole pipeline still runs, and it produces empty tables and
zero/absent KPI values. -/
theorem invalid_range_runs_empty (dev : List DeviceReading) (tab : List ChannelRow)
    (pay : List PayloadEvent) (s e : Int) (code : String) (h : e < s) :
    runPipeline dev tab pay s e code = ⟨[], [], [], [], 0, 0, none⟩ := by
  have hD : df_filtered dev s e = [] := by
    refine List.filter_eq_nil_iff.mpr (fun r _ hcond => ?_)
    simp only [Bool.and_eq_true, decide_eq_true_eq] at hcond
    exact absurd (hcond.1.trans hcond.2) (not_le.mpr h)
  have hC : filtered_sql_df tab s e = [] := by
    refine List.filter_eq_nil_iff.mpr (fun r _ hcond => ?_)
    simp only [Bool.and_eq_true, decide_eq_true_eq] at hcond
    exact absurd (hcond.1.trans hcond.2) (not_le.mpr h)
  simp [runPipeline, merged_df, final_merged_df, innerJoin, filtered_channel_df2,
    filtered_channel_df, leftJoinBuckets, total_fuel_used, total_co2, avg_engine_load,
    hD, hC]

def devW5 : List DeviceReading := [⟨0, 1, 2, some 50, 3⟩]

def tabW5 : List ChannelRow := [⟨0, "A", 1, 2⟩]

def payW5 : List PayloadEvent := [⟨0, 3⟩]

/-- Claim C5 counterexample: with start = 1 > end = 0 the script does not fail
with an InvalidRange error and the pipeline does run: the run completes and
produces (empty) filtered/joined tables and KPI output values. -/
theorem invalid_range_counterexample :
    (0 : Int) < 1
    ∧ runPipeline devW5 tabW5 payW5 1 0 "A" = ⟨[], [], [], [], 0, 0, none⟩ := by
  exact ⟨by decide, by decide⟩

def devW5b : List DeviceReading := [⟨7, 1, 2, none, 3⟩]

theorem invalid_range_runs_empty_witness :
    (-3 : Int) < 2
    ∧ runPipeline devW5b [] [] 2 (-3) "B" = ⟨[], [], [], [], 0, 0, none⟩ :=
  ⟨by decide, invalid_range_runs_empty devW5b [] [] 2 (-3) "B" (by decide)⟩

/-- Claim C7 (amended): the Channel Selector returns exactly the window rows
whose channel_code equals the requested code (it is sound and complete: a row
is in the selection iff it is a window row with that code, and the selection is
an order-preserving subsequence of the window table; an absent code yields the
empty table, not an error); for a nonempty window the exposed option set is the
distinct, sorted channel_code values of the window, but for an empty window the
script exposes the placeholder list ["None"] instead of the empty set. -/
theorem channel_selector_correct (tab : List ChannelRow) (s e : Int) (code : String) :
    (∀ r ∈ filtered_channel_df tab s e code, r.channel_code = code)
    ∧ (∀ r : ChannelRow, r ∈ filtered_channel_df tab s e code ↔
        r ∈ filtered_sql_df tab s e ∧ r.channel_code = code)
    ∧ List.Sublist (filtered_channel_df tab s e code) (filtered_sql_df tab s e)
    ∧ ((∀ r ∈ filtered_sql_df tab s e, r.channel_code ≠ code) →
        filtered_channel_df tab s e code = [])
    ∧ (filtered_sql_df tab s e ≠ [] →
        (selectbox_options tab s e).Sorted (fun a b => a ≤ b)
        ∧ (selectbox_options tab s e).Nodup
        ∧ (∀ x : String, x ∈ selectbox_options tab s e ↔
            ∃ r ∈ filtered_sql_df tab s e, r.channel_code = x))
    ∧ (filtered_sql_df tab s e = [] → selectbox_options tab s e = ["None"]) := by
  refine ⟨fun r hr => eq_of_beq (List.mem_filter.mp hr).2,
    fun r => ?_,
    List.filter_sublist _,
    fun h => List.filter_eq_nil_iff.mpr (fun r hr hb => h r hr (eq_of_beq hb)),
    fun hne => ?_, fun hnil => ?_⟩
  · rw [filtered_channel_df, List.mem_filter]
    exact and_congr_right (fun _ => beq_iff_eq)
  · have hcodes : channel_codes (filtered_sql_df tab s e) ≠ [] := by
      intro h0
      exact hne (List.map_eq_nil_iff.mp ((List.dedup_eq_nil _).mp h0))
    have hopt : selectbox_options tab s e
        = List.insertionSort (fun a b => a ≤ b) (channel_codes (filtered_sql_df tab s e)) := by
      simp only [selectbox_options]
      rw [if_neg (fun hempty => hcodes (List.isEmpty_iff.mp hempty))]
    refine ⟨hopt ▸ List.sorted_insertionSort _ _,
      hopt ▸ (List.perm_insertionSort _ _).nodup_iff.mpr (List.nodup_dedup _),
      fun x => ?_⟩
    rw [hopt, (List.perm_insertionSort _ _).mem_iff, channel_codes, List.mem_dedup,
      List.mem_map]
  · simp only [selectbox_options, hnil]
    rfl

def tabW7 : List ChannelRow := [⟨1000, "A", 1, 2⟩]

/-- Claim C7 counterexample: for a time window containing no channel rows, the
exposed option set is the placeholder ["None"], not the distinct, sorted
channel_code values of the window (which would be the empty set). -/
theorem channel_selector_counterexample :
    filtered_sql_df tabW7 0 10 = []
    ∧ selectbox_options tabW7 0 10 = ["None"]
    ∧ selectbox_options tabW7 0 10
        ≠ List.insertionSort (fun a b => a ≤ b) (channel_codes (filtered_sql_df tabW7 0 10)) := by
  exact ⟨by decide, by decide, by decide⟩

def tabW7b : List ChannelRow := [⟨5, "B", 1, 2⟩, ⟨6, "A", 1, 2⟩]

theorem channel_selector_correct_witness :
    filtered_sql_df tabW7b 0 10 ≠ []
    ∧ ChannelRow.mk 6 "A" 1 2 ∈ filtered_channel_df tabW7b 0 10 "A"
    ∧ (selectbox_options tabW7b 0 10).Sorted (fun a b => a ≤ b)
    ∧ (selectbox_options tabW7b 0 10).Nodup := by
  have hne : filtered_sql_df tabW7b 0 10 ≠ [] := by decide
  exact ⟨hne,
    ((channel_selector_correct tabW7b 0 10 "A").2.1 _).mpr ⟨by decide, rfl⟩,
    ((channel_selector_correct tabW7b 0 10 "A").2.2.2.2.1 hne).1,
    ((channel_selector_correct tabW7b 0 10 "A").2.2.2.2.1 hne).2.1⟩

/-- Claim C8: the three KPIs are computed from the time-filtered device table
as the sum of the fuel-used-delta column, the sum of the estimated-CO2 column,
and the mean of the engine-load column ignoring absent values (so a row with an
absent engine-load value does not change the mean); they are recomputed as pure
functions of the filter state (the equations hold for every channel/payload
table, so the KPIs depend on nothing else). -/
theorem kpi_metrics_correct (dev : List DeviceReading) (tab : List ChannelRow)
    (pay : List PayloadEvent) (s e : Int) (code : String) :
    (runPipeline dev tab pay s e code).totalFuel
        = ((df_filtered dev s e).map (fun r => r.fuel_used_delta)).sum
    ∧ (runPipeline dev tab pay s e code).totalCO2
        = ((df_filtered dev s e).map (fun r => r.estimated_co2)).sum
    ∧ (runPipeline dev tab pay s e code).avgLoad
        = (if ((df_filtered dev s e).filterMap (fun r => r.engine_load)).isEmpty then none
           else some (((df_filtered dev s e).filterMap (fun r => r.engine_load)).sum
             / (((df_filtered dev s e).filterMap (fun r => r.engine_load)).length : ℚ)))
    ∧ (∀ r : DeviceReading, r.engine_load = none →
        avg_engine_load (r :: dev) s e = avg_engine_load dev s e) := by
  refine ⟨rfl, rfl, rfl, fun r hr => ?_⟩
  simp only [avg_engine_load, df_filtered, List.filter_cons]
  by_cases hcond : (decide (s ≤ r.timestamp) && decide (r.timestamp ≤ e)) = true
  · simp only [if_pos hcond, List.filterMap_cons, hr]
  · simp only [if_neg hcond]

def devW8 : List DeviceReading := [⟨3, 1, 2, some 40, 3⟩]

theorem kpi_metrics_witness :
    (DeviceReading.mk 9 1 1 none 1).engine_load = none
    ∧ avg_engine_load (DeviceReading.mk 9 1 1 none 1 :: devW8) 0 10
        = avg_engine_load devW8 0 10 :=
  ⟨rfl, (kpi_metrics_correct devW8 [] [] 0 10 "A").2.2.2 _ rfl⟩

/-- Claim C9: the Payload Aggregator is insensitive to input row order:
permuting the event table yields the identical bucket table (identical key,
sum, count and mean per bucket row); re-running on the same table trivially
yields the same result since the aggregator is a pure function. -/
theorem payload_aggregator_perm (l1 l2 : List PayloadEvent) (h : l1.Perm l2) :
    agg_payload_5min l1 = agg_payload_5min l2 := by
  have hkeys : agg_keys l1 = agg_keys l2 := by
    have hd : ((l1.map (fun p => floor_5min p.cycle_start_time)).dedup).Perm
        ((l2.map (fun p => floor_5min p.cycle_start_time)).dedup) :=
      (h.map _).dedup
    exact List.eq_of_perm_of_sorted
      ((List.perm_insertionSort _ _).trans (hd.trans (List.perm_insertionSort _ _).symm))
      (List.sorted_insertionSort _ _) (List.sorted_insertionSort _ _)
  rw [agg_payload_5min, agg_payload_5min, hkeys]
  apply List.map_congr_left
  intro k _
  have hgrp : (l1.filter (fun p => floor_5min p.cycle_start_time == k)).Perm
      (l2.filter (fun p => floor_5min p.cycle_start_time == k)) := h.filter _
  have hsum : ((l1.filter (fun p => floor_5min p.cycle_start_time == k)).map
        (fun p => p.avg_payload)).sum
      = ((l2.filter (fun p => floor_5min p.cycle_start_time == k)).map
        (fun p => p.avg_payload)).sum :=
    (hgrp.map _).sum_eq
  have hlen := hgrp.length_eq
  simp only [agg_row, hsum, hlen]

def payW9a : List PayloadEvent := [⟨0, 1⟩, ⟨400, 2⟩]

def payW9b : List PayloadEvent := [⟨400, 2⟩, ⟨0, 1⟩]

theorem payload_aggregator_perm_witness :
    payW9a.Perm payW9b ∧ agg_payload_5min payW9a = agg_payload_5min payW9b :=
  ⟨by decide, payload_aggregator_perm payW9a payW9b (by decide)⟩

theorem per_device_block (tab : List ChannelRow) (pay : List PayloadEvent) (s e : Int)
    (code : String)
    (h2 : ((filtered_channel_df tab s e code).map (fun c => c.cycle_start_time)).Nodup)
    (d : DeviceReading) :
    ((filtered_channel_df tab s e code).filter
        (fun c => d.timestamp == c.cycle_start_time)).flatMap
      (fun _ => ((filtered_channel_df2 tab pay s e code).filter
        (fun a => bucket_matches a d.timestamp)).map (fun a => (d, a)))
    = ((filtered_channel_df2 tab pay s e code).filter
        (fun a => bucket_matches a d.timestamp)).map (fun a => (d, a)) := by
  by_cases hfa : (filtered_channel_df2 tab pay s e code).filter
      (fun a => bucket_matches a d.timestamp) = []
  · rw [hfa]
    simp
  · obtain ⟨a, ha⟩ := List.exists_mem_of_ne_nil _ hfa
    have ham := List.mem_filter.mp ha
    rcases hb : a.bucket with - | b
    · exfalso
      have hmm := ham.2
      unfold bucket_matches at hmm
      rw [hb] at hmm
      cases hmm
    · have hkey : b.cycle_start_time_5min = d.timestamp := by
        have hmm := ham.2
        unfold bucket_matches at hmm
        rw [hb] at hmm
        exact eq_of_beq hmm
      obtain ⟨hcmem, hbfact⟩ := mem_leftJoinBuckets ham.1
      have hcst : a.chan.cycle_start_time = d.timestamp :=
        ((hbfact b hb).2).symm.trans hkey
      have hsingle : (filtered_channel_df tab s e code).filter
          (fun c => d.timestamp == c.cycle_start_time) = [a.chan] :=
        filter_eq_singleton_of_nodup
          (fun x => (beq_iff_eq (a := d.timestamp)).trans eq_comm) h2 hcmem hcst
      rw [hsingle]
      simp

/-- Claim C6 (amended): under the hypotheses that every filtered channel row has
cycle_start_time exactly on a 5-minute boundary AND that the cycle_start_time
values of the filtered channel table are distinct, the composition of Stage B
and Stage C (the final merged table), projected onto its device and Stage-A
components, equals the single inner join of the time-filtered device table to
the Stage-A result keyed on timestamp = bucket key; moreover the projected-away
channel columns coincide with the Stage-A channel columns.  (Without the added
distinctness hypothesis the equality fails, see the counterexample.) -/
theorem stage_bc_collapse (dev : List DeviceReading) (tab : List ChannelRow)
    (pay : List PayloadEvent) (s e : Int) (code : String)
    (_h1 : ∀ c ∈ filtered_channel_df tab s e code,
        floor_5min c.cycle_start_time = c.cycle_start_time)
    (h2 : ((filtered_channel_df tab s e code).map (fun c => c.cycle_start_time)).Nodup) :
    ((final_merged_df dev tab pay s e code).map (fun p => (p.1.1, p.2))
      = single_bucket_join dev tab pay s e code)
    ∧ ∀ p ∈ final_merged_df dev tab pay s e code, p.1.2 = p.2.chan := by
  constructor
  · simp only [final_merged_df, single_bucket_join, merged_df, innerJoin,
      List.map_flatMap, List.flatMap_assoc, List.flatMap_map, List.map_map]
    congr 1
    funext d
    dsimp only [Function.comp]
    exact per_device_block tab pay s e code h2 d
  · intro p hp
    rcases mem_innerJoin.mp hp with ⟨hm, hA, hkey2⟩
    rcases mem_innerJoin.mp hm with ⟨hd, hc, hkey1⟩
    rcases hbk : p.2.bucket with - | b
    · exfalso
      unfold bucket_matches at hkey2
      rw [hbk] at hkey2
      cases hkey2
    · have hb5 : b.cycle_start_time_5min = p.1.1.timestamp := by
        unfold bucket_matches at hkey2
        rw [hbk] at hkey2
        exact eq_of_beq hkey2
      obtain ⟨hcm, hbfact⟩ := mem_leftJoinBuckets hA
      have heq : p.1.2.cycle_start_time = p.2.chan.cycle_start_time :=
        (eq_of_beq hkey1).symm.trans (hb5.symm.trans (hbfact b hbk).2)
      exact nodup_map_inj h2 hc hcm heq

def devC6 : List DeviceReading := [⟨0, 1, 1, none, 1⟩]

def tabC6 : List ChannelRow := [⟨0, "A", 1, 2⟩, ⟨0, "A", 3, 4⟩]

def payC6 : List PayloadEvent := [⟨0, 10⟩]

/-- Claim C6 counterexample: with every channel cycle_start_time 5-minute
aligned, but two channel rows sharing the same instant, the composed
Stage B + Stage C table has 4 rows while the proposed single join has 2, so the
two tables are not equal: the claimed equivalence fails as stated. -/
theorem stage_bc_collapse_counterexample :
    (∀ c ∈ filtered_channel_df tabC6 0 0 "A",
        floor_5min c.cycle_start_time = c.cycle_start_time)
    ∧ ((final_merged_df devC6 tabC6 payC6 0 0 "A").map (fun p => (p.1.1, p.2))).length = 4
    ∧ (single_bucket_join devC6 tabC6 payC6 0 0 "A").length = 2
    ∧ (final_merged_df devC6 tabC6 payC6 0 0 "A").map (fun p => (p.1.1, p.2))
        ≠ single_bucket_join devC6 tabC6 payC6 0 0 "A" :=
  ⟨by decide, by decide, by decide, by decide⟩

def tabC6b : List ChannelRow := [⟨0, "A", 1, 2⟩]

theorem stage_bc_collapse_witness :
    (∀ c ∈ filtered_channel_df tabC6b 0 0 "A",
        floor_5min c.cycle_start_time = c.cycle_start_time)
    ∧ ((filtered_channel_df tabC6b 0 0 "A").map (fun c => c.cycle_start_time)).Nodup
    ∧ (final_merged_df devC6 tabC6b payC6 0 0 "A").map (fun p => (p.1.1, p.2))
        = single_bucket_join devC6 tabC6b payC6 0 0 "A" :=
  ⟨by decide, by decide,
    (stage_bc_collapse devC6 tabC6b payC6 0 0 "A" (by decide) (by decide)).1⟩
